import Mathlib

/-!
Verification of the Moonraker Stream Deck monitor core
(`src/actions/moonraker-action.ts`).

The embedding models JavaScript strings as Lean `String`, JavaScript finite
numbers as `Rat` (with `jsRound` for `Math.round`), optional / possibly
`undefined` fields as `Option`, and the per-instance mutable `Map` of the
`MoonrakerAction` class as a function from action ids to optional instance
records.  Handlers are modelled as atomic steps returning the new scheduler
state together with the list of observable effects (network requests,
`setTitle`, `setImage`) they perform.
-/

/-- JavaScript truthiness of a `string | undefined` value: `undefined` and the
empty string are falsy. -/
def truthyOptStr : Option String → Bool
  | none => false
  | some s => s ≠ ""

/-- JavaScript truthiness of a `number | undefined` value: `undefined` and `0`
are falsy (`NaN` has no counterpart in `Rat` and is not modelled). -/
def truthyOptRat : Option Rat → Bool
  | none => false
  | some q => q ≠ 0

/-- The per-key settings bag (`MoonrakerSettings` in the source).  All fields
are optional in the source interface; the five display toggles are modelled as
plain `Bool` because the code only ever tests their truthiness, under which
`undefined` and `false` coincide. -/
structure MoonrakerSettings where
  baseUrl : Option String
  port : Option String
  apiKey : Option String
  pollingInterval : Option Rat
  displayBedTemp : Bool
  displayHotendTemp : Bool
  displayPrintStatus : Bool
  displayPrintProgress : Bool
  displayLayerInfo : Bool
  deriving DecidableEq, Repr

/-- Source `isValidSettings` (line 119): the JS expression
`!!settings.baseUrl && !!settings.pollingInterval && settings.pollingInterval > 0`. -/
def isValidSettings (s : MoonrakerSettings) : Bool :=
  truthyOptStr s.baseUrl && truthyOptRat s.pollingInterval &&
    decide (0 < s.pollingInterval.getD 0)

/-- JS `s.endsWith('/')` specialised to the single-character suffix used by the
source: the last character is a slash. -/
def strEndsWithSlash (s : String) : Bool :=
  match s.data.getLast? with
  | some c => c == '/'
  | none => false

/-- JS `s.slice(0, -1)`: drop the final character. -/
def dropLastChar (s : String) : String :=
  String.mk s.data.dropLast

/-- The port branch of `fetchDataAndUpdateKey` (lines 132-137): if the url ends
with a slash drop it, leaving any further trailing slashes alone. -/
def stripOneTrailingSlash (s : String) : String :=
  if strEndsWithSlash s then dropLastChar s else s

/-- JS `s.startsWith(pfx)`. -/
def strStartsWith (s pfx : String) : Bool :=
  pfx.data.isPrefixOf s.data

/-- Source lines 132-137: when a truthy port is configured, strip a single
trailing slash from the base address and append `:port`. -/
def applyPort (u : String) (port : Option String) : String :=
  match port with
  | some p => if p ≠ "" then stripOneTrailingSlash u ++ ":" ++ p else u
  | none => u

/-- Source lines 139-141: prepend `http://` when neither scheme is present. -/
def prependSchemeIfMissing (u : String) : String :=
  if strStartsWith u "http://" || strStartsWith u "https://" then u
  else "http://" ++ u

/-- The fixed query path of the request (line 143). -/
def queryPath : String :=
  "/printer/objects/query?print_stats&heater_bed&extruder&display_status&virtual_sdcard"

/-- The fully processed base address of the request. -/
def buildBaseUrl (s : MoonrakerSettings) : String :=
  prependSchemeIfMissing (applyPort (s.baseUrl.getD "") s.port)

/-- The endpoint hit by `fetchDataAndUpdateKey` (line 143). -/
def buildEndpoint (s : MoonrakerSettings) : String :=
  buildBaseUrl s ++ queryPath

/-- Request headers (lines 147-151): always a JSON content type, plus the
`X-Api-Key` header when a truthy access key is configured. -/
def buildHeaders (s : MoonrakerSettings) : List (String × String) :=
  ("Content-Type", "application/json") ::
    (match s.apiKey with
     | some k => if k ≠ "" then [("X-Api-Key", k)] else []
     | none => [])

/-- The full request derived from the settings. -/
def buildRequest (s : MoonrakerSettings) : String × List (String × String) :=
  (buildEndpoint s, buildHeaders s)

/-- JS `Math.round` on a finite number: round half towards positive infinity. -/
def jsRound (q : Rat) : Int :=
  ⌊q + 1 / 2⌋

/-- JS `String.prototype.toLowerCase`, restricted to the ASCII mapping that is
all the source's inputs use. -/
def jsToLower (s : String) : String :=
  String.mk (s.data.map Char.toLower)

/-- JS `s.charAt(0).toUpperCase() + s.slice(1)` (line 195); on the empty string
this yields the empty string. -/
def jsCapitalize (s : String) : String :=
  match s.data with
  | [] => ""
  | c :: rest => String.mk (Char.toUpper c :: rest)

/-- A heater reading (`heater_bed` / `extruder` sub-records). -/
structure HeaterData where
  temperature : Rat
  target : Rat
  deriving DecidableEq, Repr

/-- The optional nested layer counts of `print_stats.info`. -/
structure PrintStatsInfo where
  current_layer : Option Int
  total_layer : Option Int
  deriving DecidableEq, Repr

/-- The `print_stats` sub-record.  The source declares `state` mandatory but
reads it through an optional chain (`print_stats?.state?.toLowerCase()`), so it
is modelled as optional. -/
structure PrintStats where
  state : Option String
  filename : Option String
  info : Option PrintStatsInfo
  deriving DecidableEq, Repr

/-- The `virtual_sdcard` sub-record; the source checks
`virtual_sdcard?.progress !== undefined`, so `progress` is modelled optional. -/
structure VirtualSdcard where
  progress : Option Rat
  deriving DecidableEq, Repr

/-- The `display_status` sub-record. -/
structure DisplayStatus where
  message : String
  deriving DecidableEq, Repr

/-- The untrusted printer snapshot (`MoonrakerPrinterObjects`), every
sub-record optional. -/
structure MoonrakerPrinterObjects where
  heater_bed : Option HeaterData
  extruder : Option HeaterData
  print_stats : Option PrintStats
  virtual_sdcard : Option VirtualSdcard
  display_status : Option DisplayStatus
  deriving DecidableEq, Repr

/-- Source line 194: `status.print_stats?.state?.toLowerCase()`. -/
def currentPrintState (st : MoonrakerPrinterObjects) : Option String :=
  (st.print_stats.bind PrintStats.state).map jsToLower

/-- Source lines 195-196: capitalised state label, `"Unknown"` when the
lower-cased state is falsy (absent or empty), with `"Standby"` renamed to
`"Idle"`. -/
def displayablePrintState (st : MoonrakerPrinterObjects) : String :=
  let base :=
    match currentPrintState st with
    | some s => if s = "" then "Unknown" else jsCapitalize s
    | none => "Unknown"
  if base = "Standby" then "Idle" else base

/-- The shared `printing`/`paused` condition of the progress and layer lines
(lines 209 and 215). -/
def stateIsActive (st : MoonrakerPrinterObjects) : Bool :=
  decide (currentPrintState st = some "printing") ||
    decide (currentPrintState st = some "paused")

/-- Source lines 197-199: the status line. -/
def statusLine (st : MoonrakerPrinterObjects) (se : MoonrakerSettings) : Option String :=
  if se.displayPrintStatus && truthyOptStr (currentPrintState st) then
    some (displayablePrintState st)
  else none

/-- A temperature line `<pfx><rounded actual>/<rounded target>°`. -/
def fmtTemp (pfx : String) (h : HeaterData) : String :=
  pfx ++ toString (jsRound h.temperature) ++ "/" ++ toString (jsRound h.target) ++ "°"

/-- Source lines 201-203: the bed-temperature line. -/
def bedLine (st : MoonrakerPrinterObjects) (se : MoonrakerSettings) : Option String :=
  if se.displayBedTemp then st.heater_bed.map (fmtTemp "B:") else none

/-- Source lines 204-206: the hotend-temperature line. -/
def hotendLine (st : MoonrakerPrinterObjects) (se : MoonrakerSettings) : Option String :=
  if se.displayHotendTemp then st.extruder.map (fmtTemp "H:") else none

/-- Source lines 209-212: the progress line. -/
def progressLine (st : MoonrakerPrinterObjects) (se : MoonrakerSettings) : Option String :=
  match st.virtual_sdcard.bind VirtualSdcard.progress with
  | some p =>
      if se.displayPrintProgress && stateIsActive st then
        some (toString (jsRound (p * 100)) ++ "%")
      else none
  | none => none

/-- The character class `\d` of the source regex. -/
def isDigitChar (c : Char) : Bool :=
  '0' ≤ c && c ≤ '9'

/-- The character class `\s` of the source regex (ASCII part; the Unicode
space characters JS additionally accepts never occur in the modelled data). -/
def isSpaceChar (c : Char) : Bool :=
  c == ' ' || c == '\t' || c == '\n' || c == '\r' || c == '\x0b' || c == '\x0c'

/-- Attempt the regex `Layer\s*(\d+)\s*\/\s*(\d+)` (case-insensitive) at the
head of the character list, returning the two captured digit groups.  The
pattern needs no backtracking because the digit, space and slash classes are
disjoint. -/
def matchLayerAt (cs : List Char) : Option (List Char × List Char) :=
  match cs with
  | c0 :: c1 :: c2 :: c3 :: c4 :: rest =>
      if c0.toLower == 'l' && c1.toLower == 'a' && c2.toLower == 'y' &&
          c3.toLower == 'e' && c4.toLower == 'r' then
        let rest1 := rest.dropWhile isSpaceChar
        let d1 := rest1.takeWhile isDigitChar
        if d1.isEmpty then none
        else
          let rest2 := (rest1.dropWhile isDigitChar).dropWhile isSpaceChar
          match rest2 with
          | '/' :: rest3 =>
              let rest4 := rest3.dropWhile isSpaceChar
              let d2 := rest4.takeWhile isDigitChar
              if d2.isEmpty then none else some (d1, d2)
          | _ => none
      else none
  | _ => none

/-- JS `String.prototype.match` with the layer regex: try the pattern at every
position, leftmost match wins. -/
def findLayerMatch : List Char → Option (List Char × List Char)
  | [] => none
  | c :: rest =>
      match matchLayerAt (c :: rest) with
      | some r => some r
      | none => findLayerMatch rest

/-- Scan for an occurrence of `needle` starting at any position of `hay`. -/
def includesFrom (needle : List Char) : List Char → Bool
  | [] => needle.isEmpty
  | c :: t => needle.isPrefixOf (c :: t) || includesFrom needle t

/-- JS `hay.includes(needle)` over the character lists. -/
def strIncludes (hay needle : String) : Bool :=
  includesFrom needle.data hay.data

/-- Source lines 217-218: the structured layer text, available when both
counts are present. -/
def layerFromInfo (st : MoonrakerPrinterObjects) : Option String :=
  match st.print_stats.bind PrintStats.info with
  | some info =>
      match info.current_layer, info.total_layer with
      | some c, some t => some ("L:" ++ toString c ++ "/" ++ toString t)
      | _, _ => none
  | none => none

/-- Source lines 219-223: the regex fallback on `display_status.message`,
guarded by the message being truthy and containing `"layer"` case-insensitively. -/
def layerFromMessage (msg : String) : Option String :=
  if msg ≠ "" && strIncludes (jsToLower msg) "layer" then
    match findLayerMatch msg.data with
    | some (c, t) => some ("L:" ++ String.mk c ++ "/" ++ String.mk t)
    | none => none
  else none

/-- Source lines 215-228: the layer line. -/
def layerLine (st : MoonrakerPrinterObjects) (se : MoonrakerSettings) : Option String :=
  if se.displayLayerInfo && stateIsActive st then
    match layerFromInfo st with
    | some s => some s
    | none =>
        match st.display_status with
        | some ds => layerFromMessage ds.message
        | none => none
  else none

/-- The `titleLines` accumulated by the five toggle branches of
`updateKeyDisplay` (lines 192-228), in push order. -/
def toggleTitleLines (st : MoonrakerPrinterObjects) (se : MoonrakerSettings) : List String :=
  (statusLine st se).toList ++ (bedLine st se).toList ++ (hotendLine st se).toList ++
    (progressLine st se).toList ++ (layerLine st se).toList

/-- The final line list of `updateKeyDisplay` (lines 230-237): the toggle
lines, or the fallback when they are empty. -/
def updateKeyDisplayLines (st : MoonrakerPrinterObjects) (se : MoonrakerSettings) : List String :=
  let ls := toggleTitleLines st se
  if ls = [] then
    [if truthyOptStr (currentPrintState st) then displayablePrintState st else "No Data"]
  else ls

/-- Source lines 242-265: icon choice by state; `none` models reverting to the
default manifest icon. -/
def iconFileNameFor (st : MoonrakerPrinterObjects) : Option String :=
  match currentPrintState st with
  | some "standby" => some "icon_printer_standby.png"
  | some "idle" => some "icon_printer_standby.png"
  | some "printing" => some "icon_printer_printing.png"
  | some "paused" => some "icon_printer_paused.png"
  | some "complete" => some "icon_printer_complete.png"
  | some "error" => some "icon_printer_error.png"
  | _ => none

def c2Status : MoonrakerPrinterObjects :=
  { heater_bed := some { temperature := 59.6, target := 60 },
    extruder := some { temperature := 204.4, target := 205 },
    print_stats := some
      { state := some "printing", filename := none,
        info := some { current_layer := some 12, total_layer := some 100 } },
    virtual_sdcard := some { progress := some 0.12 },
    display_status := none }

def c2Settings : MoonrakerSettings :=
  { baseUrl := some "mainsail.local", port := none, apiKey := none, pollingInterval := some 5,
    displayBedTemp := true, displayHotendTemp := true, displayPrintStatus := true,
    displayPrintProgress := true, displayLayerInfo := true }

/-- Observable effects of the handlers: an issued network request, or a call
to the key presenter (`setTitle` / `setImage`). -/
inductive Effect where
  | fetchReq (actionId : String) (url : String) (headers : List (String × String))
  | setTitle (actionId : String) (title : String)
  | setImage (actionId : String) (image : Option String)
  deriving DecidableEq, Repr

/-- Recognise a network-request effect. -/
def isFetchReq : Effect → Bool
  | .fetchReq _ _ _ => true
  | _ => false

/-- Number of network requests in an effect list. -/
def countFetch (es : List Effect) : Nat :=
  (es.filter isFetchReq).length

/-- Source line 174: `path.join('imgs', 'actions', 'moonraker', iconFileName)`. -/
def iconRelativePath (name : String) : String :=
  "imgs/actions/moonraker/" ++ name

/-- The presentation effects of `updateKeyDisplay` (lines 239-276): one
`setTitle` with the newline-joined lines, then one `setImage` with either the
state icon's relative path or `none` (revert to the default manifest icon). -/
def updateKeyDisplayEffects (id : String) (st : MoonrakerPrinterObjects)
    (se : MoonrakerSettings) : List Effect :=
  [Effect.setTitle id (String.intercalate "\n" (updateKeyDisplayLines st se)),
   Effect.setImage id ((iconFileNameFor st).map iconRelativePath)]

/-- JS `response.ok`: the status code lies in the 2xx range. -/
def responseOk (status : Nat) : Bool :=
  200 ≤ status && status < 300

/-- The outcome of the awaited `fetch` call: either the transport layer failed
(the promise rejected), or a response arrived with a status code, a body text
and, when the body decodes as the expected `{result:{status:{...}}}` envelope,
the decoded status object (`none` models `response.json()` or the envelope
access throwing). -/
inductive FetchResult where
  | transportError (msg : String)
  | response (status : Nat) (body : String) (decoded : Option MoonrakerPrinterObjects)
  deriving DecidableEq, Repr

/-- Source lines 146-169: what `fetchDataAndUpdateKey` does with the awaited
outcome.  A non-ok status presents `Error:\n<status>` (the body is only
logged); a transport failure or an undecodable body lands in the catch block,
which presents `Fetch\nError`; a decoded body is rendered by
`updateKeyDisplay`.  The function is total: no exception escapes. -/
def handleFetchResult (id : String) (se : MoonrakerSettings) (r : FetchResult) : List Effect :=
  match r with
  | .transportError _ => [Effect.setTitle id "Fetch\nError"]
  | .response status _ decoded =>
      if responseOk status then
        match decoded with
        | some st => updateKeyDisplayEffects id st se
        | none => [Effect.setTitle id "Fetch\nError"]
      else [Effect.setTitle id ("Error:\n" ++ toString status)]

/-- The full fetch-render-present cycle (`fetchDataAndUpdateKey`,
lines 123-170) for one invocation, parameterised by the network outcome:
invalid settings short-circuit to a `Settings\nInvalid` title with no request;
otherwise the request to the built endpoint is issued and the outcome
handled. -/
def fetchCycleEffects (id : String) (s : MoonrakerSettings) (r : FetchResult) : List Effect :=
  if isValidSettings s then
    Effect.fetchReq id (buildEndpoint s) (buildHeaders s) :: handleFetchResult id s r
  else [Effect.setTitle id "Settings\nInvalid"]

/-- The request-issuing prefix of `fetchDataAndUpdateKey`, used by the
scheduler model, whose state never depends on the network outcome (the
response handling only presents). -/
def requestEffects (id : String) (s : MoonrakerSettings) : List Effect :=
  if isValidSettings s then [Effect.fetchReq id (buildEndpoint s) (buildHeaders s)]
  else [Effect.setTitle id "Settings\nInvalid"]

/-- One record of the `actionStates` map (line 35): the stored settings and
the currently stored timer handle.  Timer handles are modelled as the `Nat`
generation at which `setInterval` allocated them. -/
structure InstanceState where
  settings : MoonrakerSettings
  timerId : Option Nat
  deriving DecidableEq, Repr

/-- The scheduler's state: the `actionStates` map (as a function from action
ids), the set of interval timers that have been created and not yet cleared,
and the next fresh timer handle. -/
structure SchedulerState where
  actionStates : String → Option InstanceState
  activeTimers : List Nat
  nextTimer : Nat

/-- JS `Map.prototype.set`. -/
def mapSet (m : String → Option InstanceState) (k : String) (v : InstanceState) :
    String → Option InstanceState :=
  fun k2 => if k2 = k then some v else m k2

/-- JS `Map.prototype.delete`. -/
def mapDelete (m : String → Option InstanceState) (k : String) :
    String → Option InstanceState :=
  fun k2 => if k2 = k then none else m k2

/-- Source line 103: `this.actionStates.get(actionId)!.timerId = timerId`.
The record always exists when the source reaches this line (both callers have
just set it); the `none` branch is therefore unreachable from the handlers. -/
def setTimerId (m : String → Option InstanceState) (k : String) (tid : Nat) :
    String → Option InstanceState :=
  match m k with
  | some inst => mapSet m k { inst with timerId := some tid }
  | none => m

/-- Source lines 110-117 (`stopPollingForAction`): when the record exists and
stores a timer, clear that interval and erase the stored handle. -/
def stopPollingForAction (st : SchedulerState) (id : String) : SchedulerState :=
  match st.actionStates id with
  | some inst =>
      match inst.timerId with
      | some tid =>
          { actionStates := mapSet st.actionStates id { inst with timerId := none },
            activeTimers := st.activeTimers.erase tid,
            nextTimer := st.nextTimer }
      | none => st
  | none => st

/-- Source lines 80-108 (`applySettingsAndStartPolling`): stop any stored
timer, then either run an initial fetch, allocate a fresh interval timer and
store its handle (valid settings), or present `Settings\nRequired` without
scheduling anything (invalid settings). -/
def applySettingsAndStartPolling (st : SchedulerState) (id : String)
    (s : MoonrakerSettings) : SchedulerState × List Effect :=
  let st1 := stopPollingForAction st id
  if isValidSettings s then
    ({ actionStates := setTimerId st1.actionStates id st1.nextTimer,
       activeTimers := st1.nextTimer :: st1.activeTimers,
       nextTimer := st1.nextTimer + 1 },
     requestEffects id s)
  else (st1, [Effect.setTitle id "Settings\nRequired"])

/-- The inbound host events, plus the firing of an interval callback.  A fire
carries the action id and the timer handle the callback closed over; stale
fires (the handle was cleared, or superseded while the callback was already
queued) are delivered like any other and must be neutralised by the guard. -/
inductive HostEvent where
  | willAppear (id : String) (settings : MoonrakerSettings)
  | didReceiveSettings (id : String) (settings : MoonrakerSettings)
  | willDisappear (id : String)
  | keyDown (id : String)
  | timerFire (tid : Nat) (id : String)
  deriving DecidableEq, Repr

/-- One atomic handler step of `MoonrakerAction`, returning the new state and
the effects performed:
`onWillAppear` (lines 37-43) overwrites the record and applies the settings;
`onDidReceiveSettings` (lines 52-67) replaces the stored settings in place
(keeping the stored timer) and applies them; `onWillDisappear` (lines 45-50)
stops polling and deletes the record; `onKeyDown` (lines 69-78) runs one fetch
cycle with the stored settings when the record exists; the interval callback
(lines 91-102) fetches with the current settings only when its captured handle
equals the stored one, and otherwise only logs. -/
def schedulerStep (st : SchedulerState) (ev : HostEvent) : SchedulerState × List Effect :=
  match ev with
  | .willAppear id s =>
      applySettingsAndStartPolling
        { st with actionStates := mapSet st.actionStates id { settings := s, timerId := none } }
        id s
  | .didReceiveSettings id s =>
      let st1 :=
        match st.actionStates id with
        | some inst =>
            { st with actionStates := mapSet st.actionStates id { inst with settings := s } }
        | none =>
            { st with actionStates := mapSet st.actionStates id { settings := s, timerId := none } }
      applySettingsAndStartPolling st1 id s
  | .willDisappear id =>
      let st1 := stopPollingForAction st id
      ({ st1 with actionStates := mapDelete st1.actionStates id }, [])
  | .keyDown id =>
      match st.actionStates id with
      | some inst => (st, requestEffects id inst.settings)
      | none => (st, [])
  | .timerFire tid id =>
      match st.actionStates id with
      | some inst =>
          if inst.timerId = some tid then (st, requestEffects id inst.settings)
          else (st, [])
      | none => (st, [])

/-- The scheduler invariant behind the at-most-one-active-timer guarantee:
every stored timer handle is a live interval below the allocation counter, the
live intervals are pairwise distinct, and no two instance records store the
same handle. -/
def SchedulerInv (st : SchedulerState) : Prop :=
  (∀ tid, tid ∈ st.activeTimers → tid < st.nextTimer) ∧
  st.activeTimers.Nodup ∧
  (∀ id inst tid, st.actionStates id = some inst → inst.timerId = some tid →
    tid ∈ st.activeTimers) ∧
  (∀ id1 id2 inst1 inst2 tid, st.actionStates id1 = some inst1 →
    st.actionStates id2 = some inst2 → inst1.timerId = some tid →
    inst2.timerId = some tid → id1 = id2)

def validSettings : MoonrakerSettings :=
  { baseUrl := some "printer.local", port := some "7125", apiKey := some "secret",
    pollingInterval := some 5, displayBedTemp := true, displayHotendTemp := true,
    displayPrintStatus := true, displayPrintProgress := true, displayLayerInfo := true }

def invalidSettings : MoonrakerSettings :=
  { baseUrl := none, port := none, apiKey := none, pollingInterval := none,
    displayBedTemp := false, displayHotendTemp := false, displayPrintStatus := false,
    displayPrintProgress := false, displayLayerInfo := false }

def slashSettings : MoonrakerSettings :=
  { baseUrl := some "printer.local/", port := some "7125", apiKey := none,
    pollingInterval := some 5, displayBedTemp := false, displayHotendTemp := false,
    displayPrintStatus := false, displayPrintProgress := false, displayLayerInfo := false }

def noSlashSettings : MoonrakerSettings :=
  { baseUrl := some "10.0.0.5", port := some "80", apiKey := none,
    pollingInterval := some 1, displayBedTemp := false, displayHotendTemp := false,
    displayPrintStatus := false, displayPrintProgress := false, displayLayerInfo := false }

def emptyStatus : MoonrakerPrinterObjects :=
  { heater_bed := none, extruder := none, print_stats := none,
    virtual_sdcard := none, display_status := none }

/-- A scheduler state with one registered instance `"a"` holding live timer 0. -/
def schedState0 : SchedulerState :=
  { actionStates := fun id =>
      if id = "a" then some { settings := validSettings, timerId := some 0 } else none,
    activeTimers := [0],
    nextTimer := 1 }

/-- A scheduler state with one registered instance `"b"` holding invalid
settings and no timer. -/
def schedStateInvalid : SchedulerState :=
  { actionStates := fun id =>
      if id = "b" then some { settings := invalidSettings, timerId := none } else none,
    activeTimers := [],
    nextTimer := 0 }

/-- The scheduler state before any instance appeared. -/
def schedStateEmpty : SchedulerState :=
  { actionStates := fun _ => none, activeTimers := [], nextTimer := 0 }

theorem strip_append_slash (b : String) :
    stripOneTrailingSlash (b ++ "/") = b := by
  have hdata : (b ++ "/").data = b.data ++ ['/'] := rfl
  unfold stripOneTrailingSlash strEndsWithSlash dropLastChar
  rw [hdata, List.getLast?_concat, List.dropLast_concat]
  rfl

theorem strip_no_slash (b : String) (h : strEndsWithSlash b = false) :
    stripOneTrailingSlash b = b := by
  unfold stripOneTrailingSlash
  rw [h]
  rfl

example : buildEndpoint
    { baseUrl := some "mainsail.local/", port := some "7125", apiKey := none,
      pollingInterval := some 5, displayBedTemp := true, displayHotendTemp := true,
      displayPrintStatus := true, displayPrintProgress := true, displayLayerInfo := true } =
    "http://mainsail.local:7125/printer/objects/query?print_stats&heater_bed&extruder&display_status&virtual_sdcard" := by
  decide

theorem fmtTemp_eval (pfx : String) (t1 t2 : Rat) (n1 n2 : Int)
    (h1 : jsRound t1 = n1) (h2 : jsRound t2 = n2) :
    fmtTemp pfx { temperature := t1, target := t2 } =
      pfx ++ toString n1 ++ "/" ++ toString n2 ++ "°" := by
  show pfx ++ toString (jsRound t1) ++ "/" ++ toString (jsRound t2) ++ "°" = _
  rw [h1, h2]

theorem jsRound_c2_bed : jsRound (59.6 : Rat) = 60 := by
  unfold jsRound
  rw [Int.floor_eq_iff]
  norm_num

theorem jsRound_c2_bed_target : jsRound (60 : Rat) = 60 := by
  unfold jsRound
  rw [Int.floor_eq_iff]
  norm_num

theorem jsRound_c2_hot : jsRound (204.4 : Rat) = 204 := by
  unfold jsRound
  rw [Int.floor_eq_iff]
  norm_num

theorem jsRound_c2_hot_target : jsRound (205 : Rat) = 205 := by
  unfold jsRound
  rw [Int.floor_eq_iff]
  norm_num

theorem jsRound_c2_progress : jsRound ((0.12 : Rat) * 100) = 12 := by
  unfold jsRound
  rw [Int.floor_eq_iff]
  norm_num

example : updateKeyDisplayLines c2Status c2Settings =
    ["Printing", "B:60/60°", "H:204/205°", "12%", "L:12/100"] := by
  have h0 : updateKeyDisplayLines c2Status c2Settings =
      [displayablePrintState c2Status,
       fmtTemp "B:" { temperature := 59.6, target := 60 },
       fmtTemp "H:" { temperature := 204.4, target := 205 },
       toString (jsRound ((0.12 : Rat) * 100)) ++ "%",
       "L:" ++ toString (12 : Int) ++ "/" ++ toString (100 : Int)] := rfl
  rw [h0, fmtTemp_eval "B:" _ _ _ _ jsRound_c2_bed jsRound_c2_bed_target,
    fmtTemp_eval "H:" _ _ _ _ jsRound_c2_hot jsRound_c2_hot_target, jsRound_c2_progress]
  decide

example : layerFromMessage "Now on Layer 7 / 42 of print" = some "L:7/42" := by decide

example : updateKeyDisplayLines
    { heater_bed := none, extruder := none, print_stats := none,
      virtual_sdcard := none, display_status := none }
    { baseUrl := none, port := none, apiKey := none, pollingInterval := none,
      displayBedTemp := false, displayHotendTemp := false, displayPrintStatus := false,
      displayPrintProgress := false, displayLayerInfo := false } = ["No Data"] := by
  decide

example : updateKeyDisplayLines
    { heater_bed := none, extruder := none,
      print_stats := some { state := some "standby", filename := none, info := none },
      virtual_sdcard := none, display_status := none }
    { baseUrl := none, port := none, apiKey := none, pollingInterval := none,
      displayBedTemp := false, displayHotendTemp := false, displayPrintStatus := true,
      displayPrintProgress := false, displayLayerInfo := false } = ["Idle"] := by
  decide

theorem mapSet_self (m : String → Option InstanceState) (k : String) (v : InstanceState) :
    mapSet m k v k = some v := by
  simp [mapSet]

theorem mapSet_ne (m : String → Option InstanceState) (k : String) (v : InstanceState)
    (k2 : String) (h : k2 ≠ k) : mapSet m k v k2 = m k2 := by
  simp [mapSet, h]

theorem mapDelete_self (m : String → Option InstanceState) (k : String) :
    mapDelete m k k = none := by
  simp [mapDelete]

theorem mapDelete_ne (m : String → Option InstanceState) (k k2 : String) (h : k2 ≠ k) :
    mapDelete m k k2 = m k2 := by
  simp [mapDelete, h]

theorem inv_update (st : SchedulerState) (id : String) (v : InstanceState)
    (h : SchedulerInv st)
    (hv : ∀ tid, v.timerId = some tid →
      ∃ inst, st.actionStates id = some inst ∧ inst.timerId = some tid) :
    SchedulerInv { st with actionStates := mapSet st.actionStates id v } := by
  obtain ⟨hA, hB, hC, hD⟩ := h
  refine ⟨hA, hB, ?_, ?_⟩
  · intro id2 inst tid hget htid
    dsimp only at hget ⊢
    by_cases hid : id2 = id
    · subst hid
      rw [mapSet_self] at hget
      cases hget
      obtain ⟨inst0, hst0, htid0⟩ := hv tid htid
      exact hC id2 inst0 tid hst0 htid0
    · rw [mapSet_ne _ _ _ _ hid] at hget
      exact hC id2 inst tid hget htid
  · intro id1 id2 inst1 inst2 tid h1 h2 ht1 ht2
    dsimp only at h1 h2
    by_cases hi1 : id1 = id <;> by_cases hi2 : id2 = id
    · rw [hi1, hi2]
    · subst hi1
      rw [mapSet_self] at h1
      cases h1
      rw [mapSet_ne _ _ _ _ hi2] at h2
      obtain ⟨inst0, hst0, htid0⟩ := hv tid ht1
      exact hD id1 id2 inst0 inst2 tid hst0 h2 htid0 ht2
    · subst hi2
      rw [mapSet_self] at h2
      cases h2
      rw [mapSet_ne _ _ _ _ hi1] at h1
      obtain ⟨inst0, hst0, htid0⟩ := hv tid ht2
      exact hD id1 id2 inst1 inst0 tid h1 hst0 ht1 htid0
    · rw [mapSet_ne _ _ _ _ hi1] at h1
      rw [mapSet_ne _ _ _ _ hi2] at h2
      exact hD id1 id2 inst1 inst2 tid h1 h2 ht1 ht2

theorem inv_delete (st : SchedulerState) (id : String) (h : SchedulerInv st) :
    SchedulerInv { st with actionStates := mapDelete st.actionStates id } := by
  obtain ⟨hA, hB, hC, hD⟩ := h
  refine ⟨hA, hB, ?_, ?_⟩
  · intro id2 inst tid hget htid
    dsimp only at hget ⊢
    by_cases hid : id2 = id
    · subst hid
      rw [mapDelete_self] at hget
      cases hget
    · rw [mapDelete_ne _ _ _ hid] at hget
      exact hC id2 inst tid hget htid
  · intro id1 id2 inst1 inst2 tid h1 h2 ht1 ht2
    dsimp only at h1 h2
    by_cases hi1 : id1 = id
    · subst hi1
      rw [mapDelete_self] at h1
      cases h1
    · by_cases hi2 : id2 = id
      · subst hi2
        rw [mapDelete_self] at h2
        cases h2
      · rw [mapDelete_ne _ _ _ hi1] at h1
        rw [mapDelete_ne _ _ _ hi2] at h2
        exact hD id1 id2 inst1 inst2 tid h1 h2 ht1 ht2

theorem stopPolling_of_none (st : SchedulerState) (id : String)
    (h : st.actionStates id = none) : stopPollingForAction st id = st := by
  simp [stopPollingForAction, h]

theorem stopPolling_of_noTimer (st : SchedulerState) (id : String) (inst : InstanceState)
    (h : st.actionStates id = some inst) (ht : inst.timerId = none) :
    stopPollingForAction st id = st := by
  simp [stopPollingForAction, h, ht]

theorem stopPolling_of_timer (st : SchedulerState) (id : String) (inst : InstanceState)
    (tid : Nat) (h : st.actionStates id = some inst) (ht : inst.timerId = some tid) :
    stopPollingForAction st id =
      { actionStates := mapSet st.actionStates id { inst with timerId := none },
        activeTimers := st.activeTimers.erase tid,
        nextTimer := st.nextTimer } := by
  simp [stopPollingForAction, h, ht]

theorem stopPolling_inv (st : SchedulerState) (id : String) (h : SchedulerInv st) :
    SchedulerInv (stopPollingForAction st id) := by
  cases hrec : st.actionStates id with
  | none => rw [stopPolling_of_none st id hrec]; exact h
  | some inst =>
    cases htid : inst.timerId with
    | none => rw [stopPolling_of_noTimer st id inst hrec htid]; exact h
    | some tid =>
      rw [stopPolling_of_timer st id inst tid hrec htid]
      obtain ⟨hA, hB, hC, hD⟩ := h
      refine ⟨?_, ?_, ?_, ?_⟩
      · intro x hx
        dsimp only at hx ⊢
        exact hA x (List.mem_of_mem_erase hx)
      · exact hB.erase tid
      · intro id2 inst2 tid2 hget ht2
        dsimp only at hget ⊢
        by_cases hid : id2 = id
        · subst hid
          rw [mapSet_self] at hget
          cases hget
          cases ht2
        · rw [mapSet_ne _ _ _ _ hid] at hget
          rw [hB.mem_erase_iff]
          refine ⟨?_, hC id2 inst2 tid2 hget ht2⟩
          intro heq
          subst heq
          exact hid (hD id2 id inst2 inst tid2 hget hrec ht2 htid)
      · intro id1 id2 inst1 inst2 tid2 h1 h2 ht1 ht2
        dsimp only at h1 h2
        by_cases hi1 : id1 = id <;> by_cases hi2 : id2 = id
        · rw [hi1, hi2]
        · subst hi1
          rw [mapSet_self] at h1
          cases h1
          cases ht1
        · subst hi2
          rw [mapSet_self] at h2
          cases h2
          cases ht2
        · rw [mapSet_ne _ _ _ _ hi1] at h1
          rw [mapSet_ne _ _ _ _ hi2] at h2
          exact hD id1 id2 inst1 inst2 tid2 h1 h2 ht1 ht2

theorem stopPolling_timerId_none (st : SchedulerState) (id : String) :
    ∀ inst, (stopPollingForAction st id).actionStates id = some inst →
      inst.timerId = none := by
  intro inst2 hget
  cases hrec : st.actionStates id with
  | none =>
    rw [stopPolling_of_none st id hrec] at hget
    rw [hrec] at hget
    cases hget
  | some inst =>
    cases htid : inst.timerId with
    | none =>
      rw [stopPolling_of_noTimer st id inst hrec htid] at hget
      rw [hrec] at hget
      cases hget
      exact htid
    | some tid =>
      rw [stopPolling_of_timer st id inst tid hrec htid] at hget
      dsimp only at hget
      rw [mapSet_self] at hget
      cases hget
      rfl

theorem stopPolling_nextTimer (st : SchedulerState) (id : String) :
    (stopPollingForAction st id).nextTimer = st.nextTimer := by
  cases hrec : st.actionStates id with
  | none => rw [stopPolling_of_none st id hrec]
  | some inst =>
    cases htid : inst.timerId with
    | none => rw [stopPolling_of_noTimer st id inst hrec htid]
    | some tid => rw [stopPolling_of_timer st id inst tid hrec htid]

theorem inv_alloc (st : SchedulerState) (id : String) (h : SchedulerInv st)
    (hrec : ∀ inst, st.actionStates id = some inst → inst.timerId = none) :
    SchedulerInv
      { actionStates := setTimerId st.actionStates id st.nextTimer,
        activeTimers := st.nextTimer :: st.activeTimers,
        nextTimer := st.nextTimer + 1 } := by
  obtain ⟨hA, hB, hC, hD⟩ := h
  have hfresh : st.nextTimer ∉ st.activeTimers := by
    intro hmem
    exact absurd (hA st.nextTimer hmem) (lt_irrefl st.nextTimer)
  refine ⟨?_, ?_, ?_, ?_⟩
  · intro x hx
    dsimp only at hx ⊢
    rcases List.mem_cons.1 hx with hx | hx
    · rw [hx]; exact Nat.lt_succ_self _
    · exact Nat.lt_succ_of_lt (hA x hx)
  · exact List.nodup_cons.2 ⟨hfresh, hB⟩
  · intro id2 inst2 tid2 hget ht2
    dsimp only at hget ⊢
    cases hm : st.actionStates id with
    | none =>
      simp only [setTimerId, hm] at hget
      exact List.mem_cons_of_mem _ (hC id2 inst2 tid2 hget ht2)
    | some inst =>
      simp only [setTimerId, hm] at hget
      by_cases hid : id2 = id
      · subst hid
        rw [mapSet_self] at hget
        cases hget
        cases ht2
        exact List.mem_cons_self _ _
      · rw [mapSet_ne _ _ _ _ hid] at hget
        exact List.mem_cons_of_mem _ (hC id2 inst2 tid2 hget ht2)
  · intro id1 id2 inst1 inst2 tid2 h1 h2 ht1 ht2
    dsimp only at h1 h2
    cases hm : st.actionStates id with
    | none =>
      simp only [setTimerId, hm] at h1 h2
      exact hD id1 id2 inst1 inst2 tid2 h1 h2 ht1 ht2
    | some inst =>
      simp only [setTimerId, hm] at h1 h2
      by_cases hi1 : id1 = id <;> by_cases hi2 : id2 = id
      · rw [hi1, hi2]
      · subst hi1
        rw [mapSet_self] at h1
        cases h1
        cases ht1
        rw [mapSet_ne _ _ _ _ hi2] at h2
        exact absurd (hA _ (hC id2 inst2 _ h2 ht2)) (lt_irrefl _)
      · subst hi2
        rw [mapSet_self] at h2
        cases h2
        cases ht2
        rw [mapSet_ne _ _ _ _ hi1] at h1
        exact absurd (hA _ (hC id1 inst1 _ h1 ht1)) (lt_irrefl _)
      · rw [mapSet_ne _ _ _ _ hi1] at h1
        rw [mapSet_ne _ _ _ _ hi2] at h2
        exact hD id1 id2 inst1 inst2 tid2 h1 h2 ht1 ht2

theorem applySettings_of_valid (st : SchedulerState) (id : String) (s : MoonrakerSettings)
    (hv : isValidSettings s = true) :
    applySettingsAndStartPolling st id s =
      ({ actionStates :=
           setTimerId (stopPollingForAction st id).actionStates id
             (stopPollingForAction st id).nextTimer,
         activeTimers :=
           (stopPollingForAction st id).nextTimer ::
             (stopPollingForAction st id).activeTimers,
         nextTimer := (stopPollingForAction st id).nextTimer + 1 },
       requestEffects id s) := by
  simp [applySettingsAndStartPolling, hv]

theorem applySettings_of_invalid (st : SchedulerState) (id : String) (s : MoonrakerSettings)
    (hv : isValidSettings s = false) :
    applySettingsAndStartPolling st id s =
      (stopPollingForAction st id, [Effect.setTitle id "Settings\nRequired"]) := by
  simp [applySettingsAndStartPolling, hv]

theorem applySettings_inv (st : SchedulerState) (id : String) (s : MoonrakerSettings)
    (h : SchedulerInv st) :
    SchedulerInv (applySettingsAndStartPolling st id s).1 := by
  cases hv : isValidSettings s with
  | false =>
    rw [applySettings_of_invalid st id s hv]
    exact stopPolling_inv st id h
  | true =>
    rw [applySettings_of_valid st id s hv]
    exact inv_alloc (stopPollingForAction st id) id (stopPolling_inv st id h)
      (stopPolling_timerId_none st id)

theorem step_keyDown_state (st : SchedulerState) (id : String) :
    (schedulerStep st (.keyDown id)).1 = st := by
  cases hrec : st.actionStates id <;> simp [schedulerStep, hrec]

theorem step_timerFire_state (st : SchedulerState) (tid : Nat) (id : String) :
    (schedulerStep st (.timerFire tid id)).1 = st := by
  cases hrec : st.actionStates id with
  | none => simp [schedulerStep, hrec]
  | some inst =>
    by_cases htid : inst.timerId = some tid <;> simp [schedulerStep, hrec, htid]

theorem schedulerStep_inv (st : SchedulerState) (ev : HostEvent) (h : SchedulerInv st) :
    SchedulerInv (schedulerStep st ev).1 := by
  cases ev with
  | willAppear id s =>
    have h1 : SchedulerInv
        { st with actionStates := mapSet st.actionStates id { settings := s, timerId := none } } :=
      inv_update st id { settings := s, timerId := none } h (by intro tid ht; cases ht)
    exact applySettings_inv _ id s h1
  | didReceiveSettings id s =>
    cases hrec : st.actionStates id with
    | none =>
      have h1 : SchedulerInv
          { st with actionStates := mapSet st.actionStates id { settings := s, timerId := none } } :=
        inv_update st id { settings := s, timerId := none } h (by intro tid ht; cases ht)
      simp only [schedulerStep, hrec]
      exact applySettings_inv _ id s h1
    | some inst =>
      have h1 : SchedulerInv
          { st with actionStates := mapSet st.actionStates id { inst with settings := s } } :=
        inv_update st id { inst with settings := s } h (fun tid ht => ⟨inst, hrec, ht⟩)
      simp only [schedulerStep, hrec]
      exact applySettings_inv _ id s h1
  | willDisappear id =>
    simp only [schedulerStep]
    exact inv_delete _ id (stopPolling_inv st id h)
  | keyDown id =>
    rw [step_keyDown_state]
    exact h
  | timerFire tid id =>
    rw [step_timerFire_state]
    exact h

theorem stopPolling_active_sub (st : SchedulerState) (id : String) :
    ∀ tid, tid ∈ (stopPollingForAction st id).activeTimers → tid ∈ st.activeTimers := by
  intro tid hmem
  cases hrec : st.actionStates id with
  | none => rw [stopPolling_of_none st id hrec] at hmem; exact hmem
  | some inst =>
    cases htid : inst.timerId with
    | none => rw [stopPolling_of_noTimer st id inst hrec htid] at hmem; exact hmem
    | some t0 =>
      rw [stopPolling_of_timer st id inst t0 hrec htid] at hmem
      exact List.mem_of_mem_erase hmem

theorem applySettings_invalid_shape (st0 : SchedulerState) (id : String)
    (s : MoonrakerSettings) (hv : isValidSettings s = false) :
    (applySettingsAndStartPolling st0 id s).2 = [Effect.setTitle id "Settings\nRequired"] ∧
    (applySettingsAndStartPolling st0 id s).1.nextTimer = st0.nextTimer ∧
    (∀ tid, tid ∈ (applySettingsAndStartPolling st0 id s).1.activeTimers →
      tid ∈ st0.activeTimers) := by
  rw [applySettings_of_invalid st0 id s hv]
  exact ⟨rfl, stopPolling_nextTimer st0 id, stopPolling_active_sub st0 id⟩

theorem timerFire_stale (st : SchedulerState) (tid : Nat) (id : String)
    (h : ∀ inst, st.actionStates id = some inst → inst.timerId ≠ some tid) :
    schedulerStep st (.timerFire tid id) = (st, []) := by
  cases hrec : st.actionStates id with
  | none => simp [schedulerStep, hrec]
  | some inst => simp [schedulerStep, hrec, h inst hrec]

theorem didReceive_record (st : SchedulerState) (id : String) (s : MoonrakerSettings)
    (inst : InstanceState) (told : Nat)
    (hrec : st.actionStates id = some inst) (htid : inst.timerId = some told) :
    ((schedulerStep st (.didReceiveSettings id s)).1).actionStates id =
      some { settings := s,
             timerId := if isValidSettings s then some st.nextTimer else none } := by
  simp only [schedulerStep, hrec]
  have hrec1 : (mapSet st.actionStates id { inst with settings := s }) id =
      some { inst with settings := s } := mapSet_self _ _ _
  have hstop := stopPolling_of_timer
    { st with actionStates := mapSet st.actionStates id { inst with settings := s } }
    id { inst with settings := s } told hrec1 htid
  cases hval : isValidSettings s with
  | false =>
    rw [applySettings_of_invalid _ id s hval, hstop]
    dsimp only
    rw [mapSet_self]
    simp
  | true =>
    rw [applySettings_of_valid _ id s hval, hstop]
    dsimp only
    rw [setTimerId, mapSet_self]
    dsimp only
    rw [mapSet_self]
    simp

theorem didReceive_active_timers (st : SchedulerState) (id : String) (s : MoonrakerSettings)
    (inst : InstanceState) (told : Nat)
    (hrec : st.actionStates id = some inst) (htid : inst.timerId = some told) :
    ((schedulerStep st (.didReceiveSettings id s)).1).activeTimers =
      if isValidSettings s then st.nextTimer :: st.activeTimers.erase told
      else st.activeTimers.erase told := by
  simp only [schedulerStep, hrec]
  have hrec1 : (mapSet st.actionStates id { inst with settings := s }) id =
      some { inst with settings := s } := mapSet_self _ _ _
  have hstop := stopPolling_of_timer
    { st with actionStates := mapSet st.actionStates id { inst with settings := s } }
    id { inst with settings := s } told hrec1 htid
  cases hval : isValidSettings s with
  | false =>
    rw [applySettings_of_invalid _ id s hval, hstop]
    simp
  | true =>
    rw [applySettings_of_valid _ id s hval, hstop]
    simp

theorem didReceive_cancels (st : SchedulerState) (id : String) (s : MoonrakerSettings)
    (inst : InstanceState) (told : Nat) (hInv : SchedulerInv st)
    (hrec : st.actionStates id = some inst) (htid : inst.timerId = some told) :
    told ∉ ((schedulerStep st (.didReceiveSettings id s)).1).activeTimers := by
  obtain ⟨hA, hB, hC, hD⟩ := hInv
  have hlt : told < st.nextTimer := hA told (hC id inst told hrec htid)
  have hne : told ∉ st.activeTimers.erase told := by
    intro hmem
    exact absurd rfl ((hB.mem_erase_iff.1 hmem).1)
  rw [didReceive_active_timers st id s inst told hrec htid]
  cases hval : isValidSettings s with
  | false =>
    simpa using hne
  | true =>
    simp only [if_pos rfl]
    intro hmem
    rcases List.mem_cons.1 hmem with heq | hmem2
    · exact absurd heq (Nat.ne_of_lt hlt)
    · exact hne hmem2

theorem disappear_cancels (st : SchedulerState) (id : String)
    (inst : InstanceState) (told : Nat) (hInv : SchedulerInv st)
    (hrec : st.actionStates id = some inst) (htid : inst.timerId = some told) :
    told ∉ ((schedulerStep st (.willDisappear id)).1).activeTimers := by
  obtain ⟨hA, hB, hC, hD⟩ := hInv
  have hne : told ∉ st.activeTimers.erase told := by
    intro hmem
    exact absurd rfl ((hB.mem_erase_iff.1 hmem).1)
  simp only [schedulerStep]
  rw [stopPolling_of_timer st id inst told hrec htid]
  exact hne

theorem schedState0_inv : SchedulerInv schedState0 := by
  refine ⟨?_, ?_, ?_, ?_⟩
  · intro tid hmem
    simp only [schedState0] at hmem ⊢
    simp at hmem
    omega
  · simp [schedState0]
  · intro id inst tid hget htid
    simp only [schedState0] at hget ⊢
    by_cases hid : id = "a"
    · rw [if_pos hid] at hget
      cases hget
      dsimp only at htid
      cases htid
      simp
    · rw [if_neg hid] at hget
      cases hget
  · intro id1 id2 inst1 inst2 tid h1 h2 ht1 ht2
    simp only [schedState0] at h1 h2
    by_cases hi1 : id1 = "a"
    · by_cases hi2 : id2 = "a"
      · rw [hi1, hi2]
      · rw [if_neg hi2] at h2
        cases h2
    · rw [if_neg hi1] at h1
      cases h1

/-- C1: a fired recurring-timer callback whose captured timer identity differs
from the identity stored in the instance record (or whose instance record no
longer exists) performs no fetch, no present and no rescheduling — the state
is unchanged and the effect list is empty; in particular, after
settings-changed the old timer's fire produces zero fetch calls (and a further
settings-changed cannot resurrect it, since the fire already did nothing). -/
theorem claim1_stale_timer_guard :
    (∀ (st : SchedulerState) (tid : Nat) (id : String),
      (∀ inst, st.actionStates id = some inst → inst.timerId ≠ some tid) →
      schedulerStep st (.timerFire tid id) = (st, [])) ∧
    (∀ (st : SchedulerState) (id : String) (s : MoonrakerSettings)
      (inst : InstanceState) (told : Nat),
      SchedulerInv st → st.actionStates id = some inst → inst.timerId = some told →
      countFetch ((schedulerStep ((schedulerStep st (.didReceiveSettings id s)).1)
        (.timerFire told id)).2) = 0) := by
  constructor
  · exact timerFire_stale
  · intro st id s inst told hInv hrec htid
    have hrec2 := didReceive_record st id s inst told hrec htid
    have hlt : told < st.nextTimer := hInv.1 told (hInv.2.2.1 id inst told hrec htid)
    have hstale : ∀ inst2,
        ((schedulerStep st (.didReceiveSettings id s)).1).actionStates id = some inst2 →
        inst2.timerId ≠ some told := by
      intro inst2 hget htid2
      rw [hrec2] at hget
      cases hget
      dsimp only at htid2
      cases hval : isValidSettings s with
      | false =>
        rw [hval] at htid2
        simp at htid2
      | true =>
        rw [hval] at htid2
        simp at htid2
        omega
    rw [timerFire_stale _ told id hstale]
    rfl

/-- C2: on the snapshot with bed 59.6/60, extruder 204.4/205, state
`printing`, layers 12/100 and progress fraction 0.12, with all five display
toggles on, the reducer produces exactly
`["Printing", "B:60/60°", "H:204/205°", "12%", "L:12/100"]`. -/
theorem claim2_round_trip :
    updateKeyDisplayLines c2Status c2Settings =
      ["Printing", "B:60/60°", "H:204/205°", "12%", "L:12/100"] := by
  have h0 : updateKeyDisplayLines c2Status c2Settings =
      [displayablePrintState c2Status,
       fmtTemp "B:" { temperature := 59.6, target := 60 },
       fmtTemp "H:" { temperature := 204.4, target := 205 },
       toString (jsRound ((0.12 : Rat) * 100)) ++ "%",
       "L:" ++ toString (12 : Int) ++ "/" ++ toString (100 : Int)] := rfl
  rw [h0, fmtTemp_eval "B:" _ _ _ _ jsRound_c2_bed jsRound_c2_bed_target,
    fmtTemp_eval "H:" _ _ _ _ jsRound_c2_hot jsRound_c2_hot_target, jsRound_c2_progress]
  decide

/-- C3: the display reducer is total and never yields an empty line list; when
the five toggle branches produced nothing, the single fallback line is the
state label when a (truthy) state is present and `"No Data"` otherwise. -/
theorem claim3_render_total_nonempty :
    ∀ (st : MoonrakerPrinterObjects) (se : MoonrakerSettings),
      updateKeyDisplayLines st se ≠ [] ∧
      (toggleTitleLines st se = [] →
        updateKeyDisplayLines st se =
          [if truthyOptStr (currentPrintState st) then displayablePrintState st
           else "No Data"]) := by
  intro st se
  constructor
  · unfold updateKeyDisplayLines
    by_cases h : toggleTitleLines st se = []
    · rw [if_pos h]
      simp
    · rw [if_neg h]
      exact h
  · intro h
    unfold updateKeyDisplayLines
    rw [if_pos h]

/-- C3 witness: the empty snapshot with all toggles off renders as the single
line `"No Data"`. -/
theorem claim3_witness :
    updateKeyDisplayLines emptyStatus invalidSettings = ["No Data"] :=
  ((claim3_render_total_nonempty emptyStatus invalidSettings).2 (by decide)).trans (by decide)

/-- C1 witness: in the concrete one-instance state, after a settings change
the old timer's fire issues zero fetches. -/
theorem claim1_witness :
    countFetch ((schedulerStep ((schedulerStep schedState0
      (.didReceiveSettings "a" validSettings)).1) (.timerFire 0 "a")).2) = 0 :=
  claim1_stale_timer_guard.2 schedState0 "a" validSettings
    { settings := validSettings, timerId := some 0 } 0 schedState0_inv rfl rfl

/-- C4: `isValidSettings` is true exactly when the base address is a non-empty
string and the polling interval is a number strictly greater than zero; on
invalid settings, both the appear and the settings-changed handlers schedule
no timer (allocation counter unchanged, no new live interval) and present the
`Settings\nRequired` placeholder. -/
theorem claim4_isValid_iff_invalid_no_timer :
    (∀ s : MoonrakerSettings, isValidSettings s = true ↔
      ((∃ b, s.baseUrl = some b ∧ b ≠ "") ∧
       (∃ p, s.pollingInterval = some p ∧ 0 < p))) ∧
    (∀ (st : SchedulerState) (id : String) (s : MoonrakerSettings),
      isValidSettings s = false →
      ((schedulerStep st (.willAppear id s)).2 = [Effect.setTitle id "Settings\nRequired"] ∧
       (schedulerStep st (.willAppear id s)).1.nextTimer = st.nextTimer ∧
       (∀ tid, tid ∈ (schedulerStep st (.willAppear id s)).1.activeTimers →
         tid ∈ st.activeTimers)) ∧
      ((schedulerStep st (.didReceiveSettings id s)).2 =
         [Effect.setTitle id "Settings\nRequired"] ∧
       (schedulerStep st (.didReceiveSettings id s)).1.nextTimer = st.nextTimer ∧
       (∀ tid, tid ∈ (schedulerStep st (.didReceiveSettings id s)).1.activeTimers →
         tid ∈ st.activeTimers))) := by
  constructor
  · intro s
    cases hb : s.baseUrl with
    | none => simp [isValidSettings, truthyOptStr, hb]
    | some b =>
      cases hp : s.pollingInterval with
      | none => simp [isValidSettings, truthyOptStr, truthyOptRat, hb, hp]
      | some p =>
        simp only [isValidSettings, truthyOptStr, truthyOptRat, hb, hp, Option.getD_some,
          Bool.and_eq_true, decide_eq_true_eq, ne_eq]
        constructor
        · rintro ⟨⟨h1, h2⟩, h3⟩
          exact ⟨⟨b, rfl, h1⟩, ⟨p, rfl, h3⟩⟩
        · rintro ⟨⟨b2, hb2, h1⟩, ⟨p2, hp2, h3⟩⟩
          cases hb2
          cases hp2
          exact ⟨⟨h1, (ne_of_gt h3)⟩, h3⟩
  · intro st id s hv
    constructor
    · have happ := applySettings_invalid_shape
        { st with actionStates := mapSet st.actionStates id { settings := s, timerId := none } }
        id s hv
      exact ⟨happ.1, happ.2.1, happ.2.2⟩
    · cases hrec : st.actionStates id with
      | none =>
        have happ := applySettings_invalid_shape
          { st with actionStates := mapSet st.actionStates id { settings := s, timerId := none } }
          id s hv
        simp only [schedulerStep, hrec]
        exact ⟨happ.1, happ.2.1, happ.2.2⟩
      | some inst =>
        have happ := applySettings_invalid_shape
          { st with actionStates := mapSet st.actionStates id { inst with settings := s } }
          id s hv
        simp only [schedulerStep, hrec]
        exact ⟨happ.1, happ.2.1, happ.2.2⟩

/-- C4 witness: the concrete valid bag validates, the concrete empty bag does
not, and appearing with the empty bag presents `Settings\nRequired`. -/
theorem claim4_witness :
    isValidSettings validSettings = true ∧
    (schedulerStep schedStateEmpty (.willAppear "a" invalidSettings)).2 =
      [Effect.setTitle "a" "Settings\nRequired"] :=
  ⟨(claim4_isValid_iff_invalid_no_timer.1 validSettings).mpr
      ⟨⟨"printer.local", rfl, by decide⟩, ⟨5, rfl, by decide⟩⟩,
   ((claim4_isValid_iff_invalid_no_timer.2 schedStateEmpty "a" invalidSettings
      (by decide)).1).1⟩

/-- C5: endpoint construction is a pure function of the settings: with a
(truthy) port configured, exactly one trailing slash is stripped from the base
address before `:port` is appended (a base not ending in a slash is kept
as-is); when the port-adjusted address carries neither `http://` nor
`https://`, the scheme `http://` is prepended; and equal settings yield equal
request URL and headers. -/
theorem claim5_buildRequest :
    (∀ (s : MoonrakerSettings) (b p : String), isValidSettings s = true →
      s.baseUrl = some (b ++ "/") → s.port = some p → p ≠ "" →
      applyPort (s.baseUrl.getD "") s.port = b ++ ":" ++ p) ∧
    (∀ (s : MoonrakerSettings) (b p : String), isValidSettings s = true →
      s.baseUrl = some b → strEndsWithSlash b = false → s.port = some p → p ≠ "" →
      applyPort (s.baseUrl.getD "") s.port = b ++ ":" ++ p) ∧
    (∀ s : MoonrakerSettings,
      strStartsWith (applyPort (s.baseUrl.getD "") s.port) "http://" = false →
      strStartsWith (applyPort (s.baseUrl.getD "") s.port) "https://" = false →
      buildBaseUrl s = "http://" ++ applyPort (s.baseUrl.getD "") s.port) ∧
    (∀ s1 s2 : MoonrakerSettings, s1 = s2 → buildRequest s1 = buildRequest s2) := by
  refine ⟨?_, ?_, ?_, ?_⟩
  · intro s b p hval hb hp hpne
    rw [hb, hp]
    simp only [Option.getD_some, applyPort, if_pos hpne]
    rw [strip_append_slash]
  · intro s b p hval hb hbslash hp hpne
    rw [hb, hp]
    simp only [Option.getD_some, applyPort, if_pos hpne]
    rw [strip_no_slash b hbslash]
  · intro s h1 h2
    unfold buildBaseUrl prependSchemeIfMissing
    rw [h1, h2]
    simp
  · intro s1 s2 h
    rw [h]

/-- C5 witness: concrete port insertion with and without a trailing slash, and
concrete scheme prepending. -/
theorem claim5_witness :
    applyPort (slashSettings.baseUrl.getD "") slashSettings.port =
      "printer.local" ++ ":" ++ "7125" ∧
    applyPort (noSlashSettings.baseUrl.getD "") noSlashSettings.port =
      "10.0.0.5" ++ ":" ++ "80" ∧
    buildBaseUrl slashSettings =
      "http://" ++ applyPort (slashSettings.baseUrl.getD "") slashSettings.port :=
  ⟨claim5_buildRequest.1 slashSettings "printer.local" "7125"
      (by decide) (by decide) rfl (by decide),
   claim5_buildRequest.2.1 noSlashSettings "10.0.0.5" "80"
      (by decide) rfl (by decide) rfl (by decide),
   claim5_buildRequest.2.2.1 slashSettings (by decide) (by decide)⟩

/-- C6 counterexample: a second `willAppear` for the already-registered
instance `"a"` (which holds live timer 0) overwrites the record before
`stopPollingForAction` runs, so timer 0 is never cleared: after the operation
a new timer 1 is stored in the record while timer 0 is still a live interval —
the previously stored timer was not cancelled before the new one was stored. -/
theorem claim6_counterexample :
    schedState0.actionStates "a" = some { settings := validSettings, timerId := some 0 } ∧
    ((schedulerStep schedState0 (.willAppear "a" validSettings)).1).actionStates "a" =
      some { settings := validSettings, timerId := some 1 } ∧
    0 ∈ ((schedulerStep schedState0 (.willAppear "a" validSettings)).1).activeTimers := by
  refine ⟨by decide, by decide, by decide⟩

/-- C6 (amended): the scheduler invariant — every stored timer handle is live,
below the allocation counter, and stored by at most one instance record (so
each record holds at most one active timer identity) — is preserved by every
lifecycle operation; on settings-changed and on disappear the previously
stored timer of the instance is cancelled (no longer live afterwards).  On a
re-appear of an already-registered instance the old timer is instead leaked
alive (its fires are suppressed by the stale-timer guard), which is what the
counterexample exhibits. -/
theorem claim6_amended :
    (∀ (st : SchedulerState) (ev : HostEvent), SchedulerInv st →
      SchedulerInv (schedulerStep st ev).1) ∧
    (∀ (st : SchedulerState) (id : String) (s : MoonrakerSettings)
      (inst : InstanceState) (told : Nat), SchedulerInv st →
      st.actionStates id = some inst → inst.timerId = some told →
      told ∉ ((schedulerStep st (.didReceiveSettings id s)).1).activeTimers) ∧
    (∀ (st : SchedulerState) (id : String) (inst : InstanceState) (told : Nat),
      SchedulerInv st → st.actionStates id = some inst → inst.timerId = some told →
      told ∉ ((schedulerStep st (.willDisappear id)).1).activeTimers) :=
  ⟨schedulerStep_inv,
   fun st id s inst told h h1 h2 => didReceive_cancels st id s inst told h h1 h2,
   fun st id inst told h h1 h2 => disappear_cancels st id inst told h h1 h2⟩

/-- C6 witness: in the concrete one-instance state, a settings change cancels
the stored timer 0. -/
theorem claim6_witness :
    0 ∉ ((schedulerStep schedState0 (.didReceiveSettings "a" validSettings)).1).activeTimers :=
  claim6_amended.2.1 schedState0 "a" validSettings
    { settings := validSettings, timerId := some 0 } 0 schedState0_inv rfl rfl

/-- C7: a response whose status code is not in the 2xx range is presented as
the `Error:\n<status>` placeholder naming the numeric code; the response body
influences nothing that is presented (it is captured for logging only), and
the handler is a total function, so no exception escapes to the host. -/
theorem claim7_http_error :
    ∀ (id : String) (se : MoonrakerSettings) (status : Nat) (body : String)
      (d : Option MoonrakerPrinterObjects), responseOk status = false →
      handleFetchResult id se (.response status body d) =
        [Effect.setTitle id ("Error:\n" ++ toString status)] ∧
      (∀ (body2 : String) (d2 : Option MoonrakerPrinterObjects),
        handleFetchResult id se (.response status body2 d2) =
          handleFetchResult id se (.response status body d)) := by
  intro id se status body d h
  constructor
  · simp [handleFetchResult, h]
  · intro body2 d2
    simp [handleFetchResult, h]

/-- C7 witness: a 401 response is presented as `Error:\n401`. -/
theorem claim7_witness :
    handleFetchResult "a" validSettings (.response 401 "Unauthorized" none) =
      [Effect.setTitle "a" "Error:\n401"] :=
  ((claim7_http_error "a" validSettings 401 "Unauthorized" none (by decide)).1).trans
    (by decide)

/-- C8 counterexample: a transport failure and an undecodable 200-response
produce the same presentation, the single title `Fetch\nError` — the code has
no distinct `Host Down?`-style and `Parse Err`-style presentations, because
both failures land in the same catch block. -/
theorem claim8_counterexample :
    handleFetchResult "a" validSettings
        (.transportError "connect ECONNREFUSED 127.0.0.1:7125") =
      handleFetchResult "a" validSettings (.response 200 "<html>garbage</html>" none) ∧
    handleFetchResult "a" validSettings
        (.transportError "connect ECONNREFUSED 127.0.0.1:7125") =
      [Effect.setTitle "a" "Fetch\nError"] :=
  ⟨by decide, by decide⟩

/-- C8 (amended): transport failures and parse failures surface identically:
both are caught by the surrounding try/catch and present the single
`Fetch\nError` placeholder — they are not distinguished. -/
theorem claim8_amended :
    ∀ (id : String) (se : MoonrakerSettings) (msg : String) (status : Nat) (body : String),
      responseOk status = true →
      handleFetchResult id se (.transportError msg) =
        [Effect.setTitle id "Fetch\nError"] ∧
      handleFetchResult id se (.response status body none) =
        [Effect.setTitle id "Fetch\nError"] := by
  intro id se msg status body h
  exact ⟨rfl, by simp [handleFetchResult, h]⟩

/-- C8 witness: a successful-status response with an undecodable body is
presented as `Fetch\nError`. -/
theorem claim8_witness :
    handleFetchResult "a" validSettings (.response 200 "not json" none) =
      [Effect.setTitle "a" "Fetch\nError"] :=
  (claim8_amended "a" validSettings "timeout" 200 "not json" (by decide)).2

/-- C9: the progress line is produced exactly when the progress toggle is on,
a progress fraction is present in the snapshot, and the lower-cased state is
`printing` or `paused`; the produced line is the fraction times 100, rounded,
followed by `%`. -/
theorem claim9_progress_line :
    ∀ (st : MoonrakerPrinterObjects) (se : MoonrakerSettings),
      ((progressLine st se).isSome = true ↔
        (se.displayPrintProgress = true ∧
         (st.virtual_sdcard.bind VirtualSdcard.progress).isSome = true ∧
         (currentPrintState st = some "printing" ∨
          currentPrintState st = some "paused"))) ∧
      (∀ p : Rat, st.virtual_sdcard.bind VirtualSdcard.progress = some p →
        (progressLine st se).isSome = true →
        progressLine st se = some (toString (jsRound (p * 100)) ++ "%")) := by
  intro st se
  constructor
  · cases hp : st.virtual_sdcard.bind VirtualSdcard.progress with
    | none =>
      simp only [progressLine, hp, Option.isSome_none, Option.isSome_some]
      simp
    | some p =>
      simp only [progressLine, hp, Option.isSome_some]
      constructor
      · intro h
        by_cases hc : (se.displayPrintProgress && stateIsActive st) = true
        · rw [Bool.and_eq_true, stateIsActive, Bool.or_eq_true,
            decide_eq_true_eq, decide_eq_true_eq] at hc
          exact ⟨hc.1, by simp, hc.2⟩
        · rw [if_neg hc] at h
          cases h
      · rintro ⟨h1, h2, h3⟩
        have hc : (se.displayPrintProgress && stateIsActive st) = true := by
          rw [Bool.and_eq_true, stateIsActive, Bool.or_eq_true,
            decide_eq_true_eq, decide_eq_true_eq]
          exact ⟨h1, h3⟩
        rw [if_pos hc]
        rfl
  · intro p hp hsome
    simp only [progressLine, hp] at hsome ⊢
    by_cases hc : (se.displayPrintProgress && stateIsActive st) = true
    · rw [if_pos hc]
    · rw [if_neg hc] at hsome
      cases hsome

/-- C9 witness: on the round-trip snapshot with all toggles on, the progress
line is `12%`. -/
theorem claim9_witness :
    progressLine c2Status c2Settings = some "12%" := by
  have h := (claim9_progress_line c2Status c2Settings).2 (0.12 : Rat) rfl (by decide)
  rw [h, jsRound_c2_progress]
  decide

/-- C10: an invocation of the fetch-render-present cycle with invalid settings
issues no network request and presents the `Settings\nInvalid` placeholder
instead; the manual key-press trigger leaves the scheduler state (and hence
every stored timer) unchanged, presenting the same placeholder when the
stored settings are invalid. -/
theorem claim10_invalid_fetch_cycle :
    ∀ (st : SchedulerState) (id : String) (s : MoonrakerSettings) (r : FetchResult),
      isValidSettings s = false →
      (fetchCycleEffects id s r = [Effect.setTitle id "Settings\nInvalid"] ∧
       countFetch (fetchCycleEffects id s r) = 0) ∧
      (schedulerStep st (.keyDown id)).1 = st ∧
      (∀ inst, st.actionStates id = some inst → isValidSettings inst.settings = false →
        (schedulerStep st (.keyDown id)).2 = [Effect.setTitle id "Settings\nInvalid"]) := by
  intro st id s r hv
  refine ⟨⟨?_, ?_⟩, step_keyDown_state st id, ?_⟩
  · simp [fetchCycleEffects, hv]
  · simp [fetchCycleEffects, hv, countFetch, isFetchReq]
  · intro inst hrec hv2
    simp [schedulerStep, hrec, requestEffects, hv2]

/-- C10 witness: pressing the key of the instance with the concrete invalid
settings presents `Settings\nInvalid`, and the direct cycle does the same. -/
theorem claim10_witness :
    fetchCycleEffects "b" invalidSettings (.transportError "x") =
      [Effect.setTitle "b" "Settings\nInvalid"] ∧
    (schedulerStep schedStateInvalid (.keyDown "b")).2 =
      [Effect.setTitle "b" "Settings\nInvalid"] :=
  ⟨((claim10_invalid_fetch_cycle schedStateInvalid "b" invalidSettings
      (.transportError "x") (by decide)).1).1,
   (claim10_invalid_fetch_cycle schedStateInvalid "b" invalidSettings
      (.transportError "x") (by decide)).2.2
     { settings := invalidSettings, timerId := none } rfl (by decide)⟩
